import Mathlib

/-!
Verification of the per-chat live train tracking core of the
`rail_wala_live_bot` repository.  The repository contains two variants of
the tracker: `bot.py` (job-queue based, with an animation overlay) and
`bot1.py` (asyncio-task based).  Both are embedded below.

Modelling conventions, shared by all definitions:

* JSON dictionaries become structures; a `dict.get(k)` access of a possibly
  missing or null field is an `Option` field (a JSON `null` and an absent
  key are identified); `dict.get(k, d)` becomes `Option.getD`.
* Unix timestamps and delays are `Int` seconds; the float distance fields
  are modelled over `ℚ`, with Python's `round(x, n)` as round-half-up to
  `n` decimals and the decimal rendering abstracted by `floatText`
  (no claim depends on the decimal formatting of distances).
* A poll cycle of a tracking task is a pure step function from the chat's
  shared state plus that cycle's external inputs (the API outcome, whether
  the transport edit call raises, the id a fresh `send_message` would
  return) to the new state, the list of outbound effects performed in the
  cycle, and how the cycle ends (return, or sleep for n seconds).
  A raised-and-caught exception inside the cycle is the corresponding
  early-exit branch of the step function.
* Python truthiness on strings/ints/dicts is modelled where the source
  relies on it (`if not ts`, `if not train`, `if not sec`, `if h`).
-/

set_option maxRecDepth 100000

namespace RailBot

/-- One element of the JSON `route` array (`bot.py` lines 156-184,
`bot1.py` lines 54-58 and 131-165).  `station_name` is kept as a required
field: no claim exercises a route entry missing its name. -/
structure RouteStation where
  stationCode : Option String
  station_name : String
  platformNumber : Option String
  scheduledArrivalTime : Option Int
  actualArrivalTime : Option Int
  actualDepartureTime : Option Int
  scheduledDepartureDelaySecs : Option Int
deriving DecidableEq

/-- The JSON `currentPosition` object (`bot.py` line 153, `bot1.py`
lines 49-50 and 139-140).  The float distance fields are modelled as
integers (kilometres); no claim depends on their decimal part. -/
structure Position where
  stationCode : Option String
  distanceFromOriginKm : Option Int
  distanceFromLastStationKm : Option Int
deriving DecidableEq

/-- The `data` payload of a successful API response: `route` array and
`currentPosition` object. -/
structure ApiData where
  route : List RouteStation
  currentPosition : Option Position
deriving DecidableEq

/-- Outcome of one `requests.get(...).json()` round trip:  `exn` is a
raised transport/parse exception, `ok success data` a parsed body with its
`success` flag (`bot.py` lines 140-151, `bot1.py` lines 119-125). -/
inductive ApiResult where
  | exn : ApiResult
  | ok : Bool → ApiData → ApiResult
deriving DecidableEq

/-- Outbound operations a cycle can perform, in order: the API fetch, a
`send_message`, an `edit_message_text` attempt. -/
inductive Effect where
  | fetch : String → Effect
  | send : Int → String → Effect
  | edit : Int → Nat → String → Effect
deriving DecidableEq

def Effect.isSend : Effect → Bool
  | .send _ _ => true
  | _ => false

def Effect.isEdit : Effect → Bool
  | .edit _ _ _ => true
  | _ => false

/-- Update of a chat-keyed dictionary (`d[k] = v` is `upd d k (some v)`,
`d.pop(k, None)` is `upd d k none`). -/
def upd {α : Type} (f : Int → Option α) (k : Int) (v : Option α) : Int → Option α :=
  fun x => if x = k then v else f x

/-- Zero padded two-digit rendering used by `strftime` fields. -/
def twoDigits (n : Nat) : String := (if n < 10 then "0" else "") ++ toString n

/-- Model of `fmt_time` (`bot.py` lines 28-31, `bot1.py` lines 35-38):
`if not ts: return "N/A"` treats both an absent and a zero timestamp as
absent; otherwise the timestamp is rendered `strftime("%I:%M %p")` at the
fixed utc offset `off` (IST for `bot1.py`, the server zone for `bot.py`). -/
def fmt_time (off : Int) : Option Int → String
  | none => "N/A"
  | some ts =>
    if ts = 0 then "N/A"
    else
      let sod := ((ts + off) % 86400).toNat
      let hour := sod / 3600
      let minute := sod % 3600 / 60
      let h12 := if hour % 12 = 0 then 12 else hour % 12
      twoDigits h12 ++ ":" ++ twoDigits minute ++ " " ++ (if hour < 12 then "AM" else "PM")

/-- The IST offset `timezone(timedelta(hours=5, minutes=30))` of
`bot1.py` line 19, in seconds. -/
def istOffset : Int := 19800

/-- Model of `delay_hm` (`bot.py` lines 33-41): `if not actual or not
scheduled` makes an absent or zero timestamp yield `"N/A"`; a
non-positive difference is `"On Time"`, otherwise `"{h}h {m}m"` with the
hour part dropped when `h` is falsy. -/
def delay_hm (actual scheduled : Option Int) : String :=
  match actual, scheduled with
  | some a, some s =>
    if a = 0 ∨ s = 0 then "N/A"
    else
      let diff := a - s
      if diff ≤ 0 then "On Time"
      else
        let h := diff / 3600
        let m := diff % 3600 / 60
        if h ≠ 0 then toString h ++ "h " ++ toString m ++ "m" else toString m ++ "m"
  | _, _ => "N/A"

/-- Model of `delay_from_secs` (`bot1.py` lines 40-46): `if not sec or
sec <= 0` classifies an absent, zero, or non-positive delay as
`"On Time"`; otherwise `m = sec // 60; h = m // 60; m = m % 60` renders
`"{h} hour {m} minute late"`, dropping the hour part when `h` is falsy. -/
def delay_from_secs : Option Int → String
  | none => "On Time"
  | some sec =>
    if sec = 0 ∨ sec ≤ 0 then "On Time"
    else
      let m := sec / 60
      let h := m / 60
      let m2 := m % 60
      if h ≠ 0 then toString h ++ " hour " ++ toString m2 ++ " minute late"
      else toString m2 ++ " minute late"

/-- Python `round(x, 1)` on the integer-modelled distances: `round` is
the identity on integers (the source only rounds floats for display; no
claim depends on the decimal part). -/
def round1 (x : Int) : Int := x

/-- Python `round(x, 2)` on the integer-modelled distances. -/
def round2 (x : Int) : Int := x

/-- Rendering of a rounded distance inside an f-string. -/
def floatText (x : Int) : String := toString x

/-- The linear scan of `get_context` (`bot1.py` lines 54-59): walk the
route remembering the previously visited station; at the first station
whose `stationCode` equals the sought code return
`(current, previous, next)`, where next is the head of the remaining
stations.  No match leaves all three `None`. -/
def scanRoute (code : Option String) :
    Option RouteStation → List RouteStation →
    Option RouteStation × Option RouteStation × Option RouteStation
  | _, [] => (none, none, none)
  | pv, s :: rest =>
    if s.stationCode = code then (some s, pv, rest.head?)
    else scanRoute code (some s) rest

/-- Model of `get_context` (`bot1.py` lines 48-60), returning
`(cur, prev, nxt)` in the source's order. -/
def get_context (info : ApiData) :
    Option RouteStation × Option RouteStation × Option RouteStation :=
  scanRoute (info.currentPosition.bind Position.stationCode) none info.route

/-- The inline resolution of `bot.py` lines 156-159:
`idx = next(i for i, s in enumerate(route) if s["stationCode"] == code)`
followed by the neighbour lookups.  `none` models the `StopIteration`
raised when no station matches (caught by the surrounding
`except Exception`). -/
def pyResolve (code : Option String) :
    Option RouteStation → List RouteStation →
    Option (RouteStation × Option RouteStation × Option RouteStation)
  | _, [] => none
  | pv, s :: rest =>
    if s.stationCode = code then some (s, pv, rest.head?)
    else pyResolve code (some s) rest

/-- The literal current-station header of `bot.py`'s base text, the anchor
substring rewritten by the animation frames (lines 163 and 228). -/
def anchorCur : String := "📍 *Current Station*"

/-- The previous-station header anchor (`bot.py` lines 171 and 229). -/
def anchorPrev : String := "⬅️ *Previous Station*"

/-- The next-station header anchor (`bot.py` lines 179 and 230). -/
def anchorNext : String := "➡️ *Next Station*"

/-- Header segment of `bot.py`'s base text (line 162). -/
def pyHeader (train : String) : String := "🚆 *Train " ++ train ++ "*\n\n"

/-- Current-station segment following `anchorCur` (`bot.py` lines 164-166). -/
def pyCurBlockTail (off : Int) (cur : RouteStation) (pos : Position) : String :=
  "\n" ++ cur.station_name ++ "\n🕒 Reached: " ++ fmt_time off cur.actualArrivalTime
    ++ "\n📏 Distance Covered: " ++ floatText (round2 ((pos.distanceFromOriginKm).getD 0))
    ++ " km\n\n"

/-- Previous-station segment following `anchorPrev` (`bot.py` lines 172-174). -/
def pyPrevBlockTail (off : Int) (p : RouteStation) : String :=
  "\n" ++ p.station_name ++ "\n🚉 Departed: " ++ fmt_time off p.actualDepartureTime
    ++ "\n🛤️ Platform: " ++ p.platformNumber.getD "N/A" ++ "\n\n"

/-- Next-station segment following `anchorNext` (`bot.py` lines 180-184). -/
def pyNextBlockTail (off : Int) (n : RouteStation) : String :=
  "\n" ++ n.station_name ++ "\n⏰ Expected: " ++ fmt_time off n.actualArrivalTime
    ++ "\n🕒 Scheduled: " ++ fmt_time off n.scheduledArrivalTime
    ++ "\n⏱️ Delay: " ++ delay_hm n.actualArrivalTime n.scheduledArrivalTime
    ++ "\n🛤️ Platform: " ++ n.platformNumber.getD "N/A" ++ "\n"

/-- The base display text of `bot.py`'s `fetch_and_render`
(lines 161-185): header, current block, then optional previous and next
blocks. -/
def renderPy (off : Int) (train : String) (cur : RouteStation)
    (prev nxt : Option RouteStation) (pos : Position) : String :=
  pyHeader train ++ anchorCur ++ pyCurBlockTail off cur pos
    ++ (match prev with | none => "" | some p => anchorPrev ++ pyPrevBlockTail off p)
    ++ (match nxt with | none => "" | some n => anchorNext ++ pyNextBlockTail off n)

/-- The display text of `bot1.py`'s `track_train` (lines 131-165),
computed from the resolved `get_context` triple; an unresolved current
station renders as `"Unknown"`.  The `platform` variable of lines 131-136
is computed by the source but never used in the text and is omitted. -/
def b1Text (train : String) (data : ApiData) : String :=
  match get_context data with
  | (cur, prev, nxt) =>
    let current_loc_name := match cur with | some c => c.station_name | none => "Unknown"
    let dist := round1 ((data.currentPosition.bind Position.distanceFromOriginKm).getD 0)
    let lastDist := round1 ((data.currentPosition.bind Position.distanceFromLastStationKm).getD 0)
    let t1 := "🚆 Train *" ++ train ++ "*\n" ++ "📍 Current Station: *" ++ current_loc_name
      ++ "*\n" ++ "📏Total Distance Covered: *" ++ floatText dist ++ " km*\n"
      ++ "📏Last Distance Covered From Station: *" ++ floatText lastDist ++ " km*\n\n"
    let t2 := match prev with
      | none => t1
      | some p => t1 ++ "⬅️ Previous Station\n" ++ "🏁 " ++ p.station_name ++ "\n"
          ++ "🚉 Platform: " ++ p.platformNumber.getD "N/A" ++ "\n"
          ++ "🕒 Chart Timing: " ++ fmt_time istOffset p.scheduledArrivalTime ++ "\n"
          ++ "🕓 Actual Arrived: " ++ fmt_time istOffset p.actualArrivalTime ++ "\n"
          ++ "⏱️ Delay: " ++ delay_from_secs p.scheduledDepartureDelaySecs ++ "\n\n"
    match nxt with
    | none => t2
    | some n => t2 ++ "➡️ Next Station\n" ++ "🚉 " ++ n.station_name ++ "\n"
        ++ "🚉 Platform: " ++ n.platformNumber.getD "N/A" ++ "\n"
        ++ "🕒 Chart Timing: " ++ fmt_time istOffset n.scheduledArrivalTime ++ "\n"
        ++ "🕓 Expected Timing: " ++ fmt_time istOffset n.actualArrivalTime ++ "\n"
        ++ "⏱️ Delay: " ++ delay_from_secs n.scheduledDepartureDelaySecs ++ "\n"

/-- Steady sleep of `bot1.py`'s poll loop (`await asyncio.sleep(4)`,
line 186). -/
def b1PollInterval : Nat := 4

/-- Backoff after an unsuccessful API response in `bot1.py`
(`await asyncio.sleep(15)`, line 122). -/
def b1BackoffApi : Nat := 15

/-- Backoff after any caught exception in `bot1.py`
(`await asyncio.sleep(20)`, line 191). -/
def b1BackoffErr : Nat := 20

/-- The fixed repeating-job interval of `bot.py`
(`run_repeating(..., interval=60, ...)`, line 98). -/
def pyJobInterval : Nat := 60

/-- Shared state read and written by one `bot1.py` tracking cycle:
the global `active_trains`, `message_ids`, `last_station_code` maps and
the task-local `last_text` variable. -/
structure B1St where
  active_trains : Int → Option String
  message_ids : Int → Option Nat
  last_station_code : Int → Option (Option String)
  last_text : Option String

/-- External inputs of one `bot1.py` cycle: the chat, the API outcome,
whether the transport `edit_message_text` call raises, and the message id
a fresh `send_message` would return. -/
structure B1In where
  chat : Int
  api : ApiResult
  editFails : Bool
  newMsgId : Nat

/-- How a `bot1.py` cycle ends: `halt` is the `return` leaving the
`while True` loop, `sleepFor n` is `await asyncio.sleep(n)` followed by
the next iteration. -/
inductive B1Exit where
  | halt : B1Exit
  | sleepFor : Nat → B1Exit
deriving DecidableEq

/-- Result of one `bot1.py` cycle. -/
structure B1Out where
  st : B1St
  effects : List Effect
  exit : B1Exit

/-- One iteration of `bot1.py`'s `track_train` loop (lines 113-191).
`if not train: return`; a fetch exception sleeps 20s; `success` falsy
sleeps 15s; otherwise `last_station_code` is updated, the text rendered,
and the message edited only when the text differs from `last_text`
(an edit exception is caught by the outer handler: 20s sleep, `last_text`
not updated), or sent fresh and its id recorded when no message exists.
A send is modelled as succeeding. -/
def b1Cycle (inp : B1In) (s : B1St) : B1Out :=
  match s.active_trains inp.chat with
  | none => ⟨s, [], .halt⟩
  | some train =>
    if train = "" then ⟨s, [], .halt⟩
    else
      match inp.api with
      | .exn => ⟨s, [.fetch train], .sleepFor b1BackoffErr⟩
      | .ok success data =>
        if success then
          let cur_code := data.currentPosition.bind Position.stationCode
          let s1 := { s with last_station_code := upd s.last_station_code inp.chat (some cur_code) }
          let text := b1Text train data
          match s.message_ids inp.chat with
          | some mid =>
            if some text ≠ s.last_text then
              if inp.editFails then
                ⟨s1, [.fetch train, .edit inp.chat mid text], .sleepFor b1BackoffErr⟩
              else
                ⟨{ s1 with last_text := some text },
                 [.fetch train, .edit inp.chat mid text], .sleepFor b1PollInterval⟩
            else ⟨s1, [.fetch train], .sleepFor b1PollInterval⟩
          | none =>
            ⟨{ s1 with
                message_ids := upd s1.message_ids inp.chat (some inp.newMsgId)
                last_text := some text },
             [.fetch train, .send inp.chat text], .sleepFor b1PollInterval⟩
        else ⟨s, [.fetch train], .sleepFor b1BackoffApi⟩

/-- Shared state read and written by one `bot.py` polling-job run: the
global `active_trains`, `message_ids` maps, and `animation_tasks`
represented by the base text each registered animation task captured at
spawn time. -/
structure PySt where
  active_trains : Int → Option String
  message_ids : Int → Option Nat
  animTasks : Int → Option String

/-- Result of one `bot.py` polling-job run. -/
structure PyOut where
  st : PySt
  effects : List Effect

/-- One run of `bot.py`'s `fetch_and_render` job (lines 130-213).
`if not train_no: return`; any fetch/parse exception, an unsuccessful
response, a missing `currentPosition` (the `pos.get` attribute error) or
an unmatched station code (the caught `StopIteration`) ends the run with
no message operation; otherwise the base text is rendered and either sent
fresh (no recorded message id) or edited — unconditionally, with a failed
edit falling back to sending a replacement and re-recording its id — and
an animation task is spawned, capturing the base text, only when none is
registered for the chat. -/
def pyCycle (off : Int) (chat : Int) (api : ApiResult) (editFails : Bool)
    (newMsgId fallbackId : Nat) (s : PySt) : PyOut :=
  match s.active_trains chat with
  | none => ⟨s, []⟩
  | some train =>
    if train = "" then ⟨s, []⟩
    else
      match api with
      | .exn => ⟨s, [.fetch train]⟩
      | .ok success data =>
        if success then
          match data.currentPosition with
          | none => ⟨s, [.fetch train]⟩
          | some pos =>
            match pyResolve pos.stationCode none data.route with
            | none => ⟨s, [.fetch train]⟩
            | some (cur, prev, nxt) =>
              let base := renderPy off train cur prev nxt pos
              let step :=
                match s.message_ids chat with
                | none => (upd s.message_ids chat (some newMsgId), [Effect.send chat base])
                | some mid =>
                  if editFails then
                    (upd s.message_ids chat (some fallbackId),
                     [Effect.edit chat mid base, Effect.send chat base])
                  else (s.message_ids, [Effect.edit chat mid base])
              let anims :=
                match s.animTasks chat with
                | some _ => s.animTasks
                | none => upd s.animTasks chat (some base)
              ⟨⟨s.active_trains, step.1, anims⟩, Effect.fetch train :: step.2⟩
        else ⟨s, [.fetch train]⟩

/-- Delay until the job queue reruns `fetch_and_render`: `run_repeating`
(`bot.py` lines 96-102) reschedules after the fixed interval regardless
of how the previous run ended, so the delay after a failed cycle equals
the steady interval. -/
def pyNextPollDelay (_ : PyOut) : Nat := pyJobInterval

/-- Registry state touched by `bot1.py`'s `add_train` handler: the chat
maps plus an explicit ledger of spawned tracking tasks.  `taskOf` is the
`tasks` dict; `taskAlive` lists `(taskId, chatId)` of every spawned,
not-yet-cancelled asyncio task (a cancelled task leaves the ledger). -/
structure B1Reg where
  active_trains : Int → Option String
  taskOf : Int → Option Nat
  taskAlive : List (Nat × Int)
  nextTask : Nat
  message_ids : Int → Option Nat
  last_station_code : Int → Option (Option String)

/-- Model of `bot1.py`'s `add_train` (lines 82-96): no argument is a
silent reply-and-return; otherwise the train is stored, any task
registered for the chat is cancelled and replaced by a fresh one, and the
id of the confirmation reply is recorded in `message_ids`.
`last_station_code` is not touched. -/
def b1AddTrain (chat : Int) (args : Option String) (confirmId : Nat) (r : B1Reg) : B1Reg :=
  match args with
  | none => r
  | some train =>
    let r1 := { r with active_trains := upd r.active_trains chat (some train) }
    let r2 :=
      match r1.taskOf chat with
      | some t => { r1 with taskAlive := r1.taskAlive.filter (fun p => p.1 ≠ t) }
      | none => r1
    let r3 := { r2 with
      taskAlive := (r2.nextTask, chat) :: r2.taskAlive
      taskOf := upd r2.taskOf chat (some r2.nextTask)
      nextTask := r2.nextTask + 1 }
    { r3 with message_ids := upd r3.message_ids chat (some confirmId) }

/-- Registry state touched by `bot.py`'s `add_train` handler: the chat
maps, the animation-task registry with its ledger of spawned tasks, and
the list of scheduled repeating jobs (one entry per job, named by chat). -/
structure PyReg where
  active_trains : Int → Option String
  message_ids : Int → Option Nat
  animOf : Int → Option Nat
  animAlive : List (Nat × Int)
  jobs : List Int

/-- Model of `bot.py`'s `add_train` (lines 68-104): no argument is a
reply-and-return; otherwise the stripped train number is stored, the
registered animation task (if any) is cancelled and popped, every job
named after the chat is removed, the stored message id is popped to force
a fresh message, and a new repeating job is scheduled. -/
def pyAddTrain (chat : Int) (args : Option String) (r : PyReg) : PyReg :=
  match args with
  | none => r
  | some arg =>
    let train := arg.trim
    let r1 := { r with active_trains := upd r.active_trains chat (some train) }
    let r2 :=
      match r1.animOf chat with
      | some t => { r1 with
          animAlive := r1.animAlive.filter (fun p => p.1 ≠ t)
          animOf := upd r1.animOf chat none }
      | none => r1
    let r3 := { r2 with jobs := r2.jobs.filter (fun c => c ≠ chat) }
    let r4 := { r3 with message_ids := upd r3.message_ids chat none }
    { r4 with jobs := chat :: r4.jobs }

/-- Every running tracking task of this chat is the one registered in the
`tasks` dict (the reachable-state discipline of `bot1.py`, where tasks are
only ever spawned by `add_train`, which registers them). -/
def b1TasksConsistent (r : B1Reg) (chat : Int) : Prop :=
  ∀ p ∈ r.taskAlive, p.2 = chat → r.taskOf chat = some p.1

/-- Every running animation task of this chat is the one registered in the
`animation_tasks` dict of `bot.py`. -/
def pyAnimConsistent (r : PyReg) (chat : Int) : Prop :=
  ∀ p ∈ r.animAlive, p.2 = chat → r.animOf chat = some p.1

/-- Python `str.replace(pat, rep)` on character lists: scan left to
right; on a match emit `rep` and continue after the matched pattern,
otherwise keep one character.  The fuel argument (instantiated with the
string length, which only shrinks faster than the fuel) keeps the
recursion structural. -/
def replaceAllAux (pat rep : List Char) : Nat → List Char → List Char
  | 0, s => s
  | _ + 1, [] => []
  | f + 1, c :: s =>
    if pat.isPrefixOf (c :: s) then rep ++ replaceAllAux pat rep f ((c :: s).drop pat.length)
    else c :: replaceAllAux pat rep f s

/-- List-level entry point of the replacement. -/
def rep1 (s pat rep : List Char) : List Char := replaceAllAux pat rep s.length s

/-- Model of Python's `str.replace` as used by `animate_message`
(`bot.py` lines 226-231). -/
def pyReplace (s pat rep : String) : String := ⟨rep1 s.data pat.data rep.data⟩

/-- The three animation frames of `animate_message` (`bot.py`
lines 217-221). -/
def pyFrames : List (String × String × String) :=
  [("📍", "⬅️ .", "➡️"), ("📍➤", "⬅️ . .", "➡️➡️"), ("📍➤📍", "⬅️ . . .", "➡️➡️➡️")]

/-- Decorated current-station header `f"{c} *Current Station*"`. -/
def decoratedCur (c : String) : String := c ++ " *Current Station*"

/-- Decorated previous-station header `f"{p} *Previous Station*"`. -/
def decoratedPrev (p : String) : String := p ++ " *Previous Station*"

/-- Decorated next-station header `f"{n} *Next Station*"`. -/
def decoratedNext (n : String) : String := n ++ " *Next Station*"

/-- One animation frame applied to a base text (`bot.py` lines 226-231):
three chained `replace` calls swapping each anchor header for its
decorated form. -/
def applyFrame (fr : String × String × String) (base : String) : String :=
  pyReplace (pyReplace (pyReplace base anchorCur (decoratedCur fr.1))
      anchorPrev (decoratedPrev fr.2.1))
    anchorNext (decoratedNext fr.2.2)

/-- Un-applying a frame: replacing each decorated header back by its
anchor. -/
def unapplyFrame (fr : String × String × String) (t : String) : String :=
  pyReplace (pyReplace (pyReplace t (decoratedCur fr.1) anchorCur)
      (decoratedPrev fr.2.1) anchorPrev)
    (decoratedNext fr.2.2) anchorNext

/-- The frame used at the k-th animation tick: the frames cycle in order,
each applied to the base text captured at spawn time. -/
def frameAt (k : Nat) : String × String × String :=
  pyFrames.getD (k % 3) ("📍", "⬅️ .", "➡️")

/-- The text the animation task edits into the message at its k-th tick
(`bot.py` lines 224-238): the k-th frame applied to the captured base
text — never to the previously emitted frame. -/
def animate_emit (base : String) (k : Nat) : String := applyFrame (frameAt k) base

/-- Optional segment of a decomposed base text: empty when the station
is absent, a rendered block otherwise. -/
def optSeg (o : Option RouteStation) (f : RouteStation → String) : String :=
  match o with
  | none => ""
  | some a => f a

/-- A text free of the three marker glyphs that head the anchor and
decorated headers.  Station names, platforms, times and distances of real
data satisfy this. -/
def cleanText (s : String) : Prop :=
  '📍' ∉ s.data ∧ '⬅' ∉ s.data ∧ '➡' ∉ s.data

/-- Concrete fixture: first route station. -/
def stA : RouteStation := ⟨some "NDLS", "New Delhi", some "1", some 1000, some 1000, some 1100, some 0⟩

/-- Concrete fixture: middle route station. -/
def stB : RouteStation := ⟨some "CNB", "Kanpur", some "2", some 5000, some 5090, some 5200, some 90⟩

/-- Concrete fixture: last route station. -/
def stC : RouteStation := ⟨some "ALD", "Prayagraj", some "3", some 9000, some 12660, none, some 3660⟩

/-- Position resolving to the middle station. -/
def posB : Position := ⟨some "CNB", some 440, some 5⟩

/-- Successful payload whose position matches the middle station. -/
def dataB : ApiData := ⟨[stA, stB, stC], some posB⟩

/-- Position whose station code matches nothing on the route. -/
def posZ : Position := ⟨some "ZZZ", some 10, some 1⟩

/-- Successful payload whose position matches no route station. -/
def dataZ : ApiData := ⟨[stA, stB, stC], some posZ⟩

/-- bot1 cycle state: chat 1 tracked, no message yet. -/
def b1St0 : B1St :=
  ⟨fun c => if c = 1 then some "12303" else none, fun _ => none, fun _ => none, none⟩

/-- bot1 cycle state: chat 1 tracked with recorded message id 5. -/
def b1StMsg : B1St :=
  ⟨fun c => if c = 1 then some "12303" else none,
   fun c => if c = 1 then some 5 else none,
   fun c => if c = 1 then some (some "NDLS") else none, none⟩

/-- bot.py cycle state: chat 1 tracked, no message yet. -/
def pySt0 : PySt :=
  ⟨fun c => if c = 1 then some "12303" else none, fun _ => none, fun _ => none⟩

/-- bot.py cycle state: chat 1 tracked with recorded message id 5. -/
def pyStMsg : PySt :=
  ⟨fun c => if c = 1 then some "12303" else none,
   fun c => if c = 1 then some 5 else none, fun _ => none⟩

/-- State left by a first successful `bot.py` cycle on `pySt0` (message
id 7 recorded, animation task registered). -/
def pySt1 : PySt := (pyCycle 0 1 (.ok true dataB) false 7 8 pySt0).st

/-- bot1 registry fixture: chat 1 already tracking, task 0 alive,
message 5 recorded, last seen code `"NDLS"`. -/
def b1Reg0 : B1Reg :=
  ⟨fun c => if c = 1 then some "111" else none,
   fun c => if c = 1 then some 0 else none,
   [(0, 1)], 1,
   fun c => if c = 1 then some 5 else none,
   fun c => if c = 1 then some (some "NDLS") else none⟩

/-- bot.py registry fixture: chat 1 already tracking with a live
animation task 0, a job, and message 5 recorded. -/
def pyReg0 : PyReg :=
  ⟨fun c => if c = 1 then some "111" else none,
   fun c => if c = 1 then some 5 else none,
   fun c => if c = 1 then some 0 else none,
   [(0, 1)], [1]⟩

/-! Helper lemmas about the resolvers. -/

/-- A code matching no station makes the `bot1.py` scan return three
`None`s, whatever station was previously visited. -/
theorem scanRoute_eq_none (code : Option String) :
    ∀ (route : List RouteStation), (∀ st ∈ route, st.stationCode ≠ code) →
      ∀ pv, scanRoute code pv route = (none, none, none) := by
  intro route
  induction route with
  | nil => intro _ _; rfl
  | cons s rest ih =>
    intro h pv
    have hs : ¬ s.stationCode = code := h s (List.mem_cons_self s rest)
    simpa [scanRoute, hs] using ih (fun st hst => h st (List.mem_cons_of_mem s hst)) (some s)

/-- A code matching no station makes the `bot.py` scan raise
`StopIteration`, modelled as `none`. -/
theorem pyResolve_eq_none (code : Option String) :
    ∀ (route : List RouteStation), (∀ st ∈ route, st.stationCode ≠ code) →
      ∀ pv, pyResolve code pv route = none := by
  intro route
  induction route with
  | nil => intro _ _; rfl
  | cons s rest ih =>
    intro h pv
    have hs : ¬ s.stationCode = code := h s (List.mem_cons_self s rest)
    simpa [pyResolve, hs] using ih (fun st hst => h st (List.mem_cons_of_mem s hst)) (some s)

/-- C6 (amended): `bot1.py`'s `delay_from_secs` classifies an absent or
non-positive delay as `"On Time"` and otherwise renders whole minutes as
`"H hour M minute late"`, omitting the hour part when it is zero, with
90 s giving `"1 minute late"` and 3660 s giving `"1 hour 1 minute late"`;
`bot.py`'s `delay_hm` instead returns `"N/A"` when either timestamp is
absent or zero, `"On Time"` when the difference is non-positive, and
renders the same whole-minute values as `"Hh Mm"`, omitting the hour part
when it is zero. -/
theorem c6_delay_classifier :
    delay_from_secs none = "On Time"
  ∧ (∀ s : Int, s ≤ 0 → delay_from_secs (some s) = "On Time")
  ∧ (∀ s : Int, 0 < s → delay_from_secs (some s) =
      (if s / 3600 ≠ 0 then
        toString (s / 3600) ++ " hour " ++ toString (s % 3600 / 60) ++ " minute late"
       else toString (s % 3600 / 60) ++ " minute late"))
  ∧ delay_from_secs (some 90) = "1 minute late"
  ∧ delay_from_secs (some 3660) = "1 hour 1 minute late"
  ∧ (∀ sch : Option Int, delay_hm none sch = "N/A")
  ∧ (∀ a : Option Int, delay_hm a none = "N/A")
  ∧ (∀ a sch : Int, a ≠ 0 → sch ≠ 0 → a - sch ≤ 0 → delay_hm (some a) (some sch) = "On Time")
  ∧ (∀ a sch : Int, a ≠ 0 → sch ≠ 0 → 0 < a - sch → delay_hm (some a) (some sch) =
      (if (a - sch) / 3600 ≠ 0 then
        toString ((a - sch) / 3600) ++ "h " ++ toString ((a - sch) % 3600 / 60) ++ "m"
       else toString ((a - sch) % 3600 / 60) ++ "m")) := by
  refine ⟨rfl, ?_, ?_, by decide, by decide, ?_, ?_, ?_, ?_⟩
  · intro s hs
    simp [delay_from_secs, hs]
  · intro s hs
    have h0 : ¬ (s = 0 ∨ s ≤ 0) := by omega
    have h1 : s / 60 / 60 = s / 3600 := by omega
    have h2 : s / 60 % 60 = s % 3600 / 60 := by omega
    simp only [delay_from_secs, if_neg h0]
    rw [h1, h2]
  · intro sch; cases sch <;> rfl
  · intro a; cases a <;> rfl
  · intro a sch ha hs hd
    have h0 : ¬ (a = 0 ∨ sch = 0) := by tauto
    simp only [delay_hm, if_neg h0, if_pos hd]
  · intro a sch ha hs hd
    have h0 : ¬ (a = 0 ∨ sch = 0) := by tauto
    have h1 : ¬ (a - sch ≤ 0) := by omega
    simp only [delay_hm, if_neg h0, if_neg h1]

/-- C6 witness: the hypothesis-bearing parts of the classification
theorem evaluated at concrete delays. -/
theorem c6_delay_classifier_witness :
    delay_from_secs (some (-7)) = "On Time" ∧ delay_hm (some 500) (some 500) = "On Time" :=
  ⟨c6_delay_classifier.2.1 (-7) (by decide),
   c6_delay_classifier.2.2.2.2.2.2.2.1 500 500 (by decide) (by decide) (by decide)⟩

/-- C6 counterexample: the `bot.py` delay classifier cited by the claim
renders a 3660-second delay as `"1h 1m"`, not `"1 hour 1 minute late"`,
and renders an absent delay as `"N/A"`, not `"on time"`. -/
theorem c6_delay_classifier_counterexample :
    delay_hm (some 4660) (some 1000) = "1h 1m"
  ∧ "1h 1m" ≠ "1 hour 1 minute late"
  ∧ delay_hm none (some 1000) = "N/A"
  ∧ "N/A" ≠ "On Time" := by
  refine ⟨by decide, by decide, rfl, by decide⟩

/-- C8: `fmt_time` renders an absent timestamp and the zero timestamp as
the fixed `"N/A"` (the Unix epoch is treated as absent), and every other
timestamp as a 12-hour clock `"HH:MM AM"`/`"HH:MM PM"` with an hour in
1..12 and minutes below 60, at any fixed utc offset. -/
theorem c8_fmt_time :
    (∀ off : Int, fmt_time off none = "N/A" ∧ fmt_time off (some 0) = "N/A")
  ∧ (∀ off t : Int, t ≠ 0 → ∃ h m : Nat, 1 ≤ h ∧ h ≤ 12 ∧ m < 60 ∧
      (fmt_time off (some t) = twoDigits h ++ ":" ++ twoDigits m ++ " " ++ "AM"
       ∨ fmt_time off (some t) = twoDigits h ++ ":" ++ twoDigits m ++ " " ++ "PM")) := by
  constructor
  · intro off
    exact ⟨rfl, by simp [fmt_time]⟩
  · intro off t ht
    refine ⟨(if ((t + off) % 86400).toNat / 3600 % 12 = 0 then 12
             else ((t + off) % 86400).toNat / 3600 % 12),
            ((t + off) % 86400).toNat % 3600 / 60, ?_, ?_, by omega, ?_⟩
    · split
      · omega
      · rename_i hne
        omega
    · split
      · omega
      · have := Nat.mod_lt (((t + off) % 86400).toNat / 3600) (show 0 < 12 by omega)
        omega
    · simp only [fmt_time, if_neg ht]
      by_cases hh : ((t + off) % 86400).toNat / 3600 < 12
      · left
        rw [if_pos hh]
      · right
        rw [if_neg hh]

/-- C8 witness: the renderable branch applied at offset 19800 and
timestamp 1000. -/
theorem c8_fmt_time_witness :
    ∃ h m : Nat, 1 ≤ h ∧ h ≤ 12 ∧ m < 60 ∧
      (fmt_time 19800 (some 1000) = twoDigits h ++ ":" ++ twoDigits m ++ " " ++ "AM"
       ∨ fmt_time 19800 (some 1000) = twoDigits h ++ ":" ++ twoDigits m ++ " " ++ "PM") :=
  c8_fmt_time.2 19800 1000 (by decide)

/-- C9: once a chat has no entry in `active_trains`, a tracking cycle for
that chat performs no fetch, send or edit: `bot1.py`'s loop returns
immediately and `bot.py`'s job returns with no effect and no state
change. -/
theorem c9_untracked_chat_idle :
    (∀ (inp : B1In) (s : B1St), s.active_trains inp.chat = none →
        b1Cycle inp s = ⟨s, [], .halt⟩)
  ∧ (∀ (off chat : Int) (api : ApiResult) (ef : Bool) (nid fid : Nat) (s : PySt),
        s.active_trains chat = none → pyCycle off chat api ef nid fid s = ⟨s, []⟩) := by
  constructor
  · intro inp s h
    simp [b1Cycle, h]
  · intro off chat api ef nid fid s h
    simp [pyCycle, h]

/-- C9 witness: a cycle for untracked chat 2 on both variants. -/
theorem c9_untracked_chat_idle_witness :
    b1Cycle ⟨2, .exn, false, 0⟩ b1St0 = ⟨b1St0, [], .halt⟩
  ∧ pyCycle 0 2 .exn false 0 0 pySt0 = ⟨pySt0, []⟩ :=
  ⟨c9_untracked_chat_idle.1 ⟨2, .exn, false, 0⟩ b1St0 (by decide),
   c9_untracked_chat_idle.2 0 2 .exn false 0 0 pySt0 (by decide)⟩

/-- C1 (amended): a current station code occurring nowhere on the route
(an absent code included) makes `bot1.py`'s `get_context` return all
three of `(current, previous, next)` absent without raising, and makes a
`bot.py` cycle skip rendering — the caught `StopIteration` ends the run
with no message operation and no state change; `bot1.py`'s caller,
however, does not skip such a cycle (see the counterexample). -/
theorem c1_unmatched_code :
    (∀ info : ApiData,
        (∀ st ∈ info.route, st.stationCode ≠ info.currentPosition.bind Position.stationCode) →
        get_context info = (none, none, none))
  ∧ (∀ (off chat : Int) (d : ApiData) (ef : Bool) (nid fid : Nat) (s : PySt)
        (train : String) (pos : Position),
        s.active_trains chat = some train → train ≠ "" →
        d.currentPosition = some pos →
        (∀ st ∈ d.route, st.stationCode ≠ pos.stationCode) →
        pyCycle off chat (.ok true d) ef nid fid s = ⟨s, [.fetch train]⟩) := by
  constructor
  · intro info h
    exact scanRoute_eq_none _ _ h none
  · intro off chat d ef nid fid s train pos hA ht hp hmatch
    have hres : pyResolve pos.stationCode none d.route = none := pyResolve_eq_none _ _ hmatch none
    simp [pyCycle, hA, ht, hp, hres]

/-- C1 witness: the resolver and the `bot.py` cycle on a payload whose
position code `"ZZZ"` matches no route station. -/
theorem c1_unmatched_code_witness :
    get_context dataZ = (none, none, none)
  ∧ pyCycle 0 1 (.ok true dataZ) false 7 8 pySt0 = ⟨pySt0, [.fetch "12303"]⟩ :=
  ⟨c1_unmatched_code.1 dataZ (by decide),
   c1_unmatched_code.2 0 1 dataZ false 7 8 pySt0 "12303" posZ
     (by decide) (by decide) (by decide) (by decide)⟩

/-- C1 counterexample: on the same unmatched code, `bot1.py`'s tracking
cycle does not treat the triple-absent context as "no renderable
position": it still renders and sends a message (station name
`"Unknown"`), recording its id. -/
theorem c1_unmatched_code_counterexample :
    (b1Cycle ⟨1, .ok true dataZ, false, 77⟩ b1St0).effects.countP Effect.isSend = 1
  ∧ (b1Cycle ⟨1, .ok true dataZ, false, 77⟩ b1St0).st.message_ids 1 = some 77
  ∧ (b1Cycle ⟨1, .ok true dataZ, false, 77⟩ b1St0).exit = .sleepFor b1PollInterval := by
  refine ⟨by decide, by decide, by decide⟩

/-- C2 (amended): on a fetch exception or a `success=false` response the
tracking cycle performs no send and no edit and the task stays alive; in
`bot1.py` the next poll follows after a backoff (15 s on an unsuccessful
response, 20 s on an exception), both strictly longer than its 4 s steady
interval; in `bot.py` the next poll follows after the unchanged fixed
60 s repeating-job interval. -/
theorem c2_failed_poll_backoff :
    (∀ (inp : B1In) (s : B1St) (train : String),
        s.active_trains inp.chat = some train → train ≠ "" →
        (inp.api = .exn → b1Cycle inp s = ⟨s, [.fetch train], .sleepFor b1BackoffErr⟩)
      ∧ (∀ d : ApiData, inp.api = .ok false d →
          b1Cycle inp s = ⟨s, [.fetch train], .sleepFor b1BackoffApi⟩))
  ∧ b1PollInterval < b1BackoffApi
  ∧ b1PollInterval < b1BackoffErr
  ∧ (∀ (off chat : Int) (ef : Bool) (nid fid : Nat) (s : PySt) (train : String) (d : ApiData),
        s.active_trains chat = some train → train ≠ "" →
        pyCycle off chat .exn ef nid fid s = ⟨s, [.fetch train]⟩
      ∧ pyCycle off chat (.ok false d) ef nid fid s = ⟨s, [.fetch train]⟩) := by
  refine ⟨?_, by decide, by decide, ?_⟩
  · intro inp s train hA ht
    constructor
    · intro hapi
      simp [b1Cycle, hA, ht, hapi]
    · intro d hapi
      simp [b1Cycle, hA, ht, hapi]
  · intro off chat ef nid fid s train d hA ht
    constructor <;> simp [pyCycle, hA, ht]

/-- C2 witness: an unsuccessful response on `bot1.py` and a fetch
exception on `bot.py`, for a tracked chat. -/
theorem c2_failed_poll_backoff_witness :
    b1Cycle ⟨1, .ok false dataB, false, 7⟩ b1St0 = ⟨b1St0, [.fetch "12303"], .sleepFor b1BackoffApi⟩
  ∧ pyCycle 0 1 .exn false 7 8 pySt0 = ⟨pySt0, [.fetch "12303"]⟩ :=
  ⟨(c2_failed_poll_backoff.1 ⟨1, .ok false dataB, false, 7⟩ b1St0 "12303"
      (by decide) (by decide)).2 dataB rfl,
   (c2_failed_poll_backoff.2.2.2 0 1 false 7 8 pySt0 "12303" dataB
      (by decide) (by decide)).1⟩

/-- C2 counterexample: after a `success=false` cycle, `bot.py` schedules
its next poll after the same fixed 60 s repeating-job interval as after a
successful cycle — there is no backoff strictly longer than the steady
poll interval. -/
theorem c2_failed_poll_backoff_counterexample :
    (pyCycle 0 1 (.ok false dataB) false 7 8 pySt0).effects.countP Effect.isSend = 0
  ∧ (pyCycle 0 1 (.ok false dataB) false 7 8 pySt0).effects.countP Effect.isEdit = 0
  ∧ pyNextPollDelay (pyCycle 0 1 (.ok false dataB) false 7 8 pySt0) = pyJobInterval
  ∧ ¬ pyJobInterval < pyNextPollDelay (pyCycle 0 1 (.ok false dataB) false 7 8 pySt0) := by
  refine ⟨by decide, by decide, rfl, by decide⟩

/-- C3 (amended): in `bot1.py`, a successful cycle whose rendered text
equals the last text actually sent or edited performs zero outbound
operations, a differing cycle performs exactly one edit, and a cycle with
no tracked message sends exactly one message and records its id; in
`bot.py` a cycle with no tracked message likewise sends exactly one
message and records its id, but a cycle with an existing tracked message
performs exactly one edit whether or not the rendered text changed. -/
theorem c3_idempotent_edits :
    (∀ (chat : Int) (ef : Bool) (nid : Nat) (s : B1St) (train : String) (d : ApiData) (mid : Nat),
        s.active_trains chat = some train → train ≠ "" →
        s.message_ids chat = some mid →
        s.last_text = some (b1Text train d) →
        (b1Cycle ⟨chat, .ok true d, ef, nid⟩ s).effects.countP Effect.isEdit = 0
      ∧ (b1Cycle ⟨chat, .ok true d, ef, nid⟩ s).effects.countP Effect.isSend = 0)
  ∧ (∀ (chat : Int) (nid : Nat) (s : B1St) (train : String) (d : ApiData) (mid : Nat),
        s.active_trains chat = some train → train ≠ "" →
        s.message_ids chat = some mid →
        s.last_text ≠ some (b1Text train d) →
        (b1Cycle ⟨chat, .ok true d, false, nid⟩ s).effects.countP Effect.isEdit = 1
      ∧ (b1Cycle ⟨chat, .ok true d, false, nid⟩ s).effects.countP Effect.isSend = 0)
  ∧ (∀ (chat : Int) (ef : Bool) (nid : Nat) (s : B1St) (train : String) (d : ApiData),
        s.active_trains chat = some train → train ≠ "" →
        s.message_ids chat = none →
        (b1Cycle ⟨chat, .ok true d, ef, nid⟩ s).effects.countP Effect.isSend = 1
      ∧ (b1Cycle ⟨chat, .ok true d, ef, nid⟩ s).effects.countP Effect.isEdit = 0
      ∧ (b1Cycle ⟨chat, .ok true d, ef, nid⟩ s).st.message_ids chat = some nid)
  ∧ (∀ (off chat : Int) (d : ApiData) (ef : Bool) (nid fid : Nat) (s : PySt)
        (train : String) (pos : Position)
        (cur : RouteStation) (prev nxt : Option RouteStation),
        s.active_trains chat = some train → train ≠ "" →
        d.currentPosition = some pos →
        pyResolve pos.stationCode none d.route = some (cur, prev, nxt) →
        s.message_ids chat = none →
        (pyCycle off chat (.ok true d) ef nid fid s).effects.countP Effect.isSend = 1
      ∧ (pyCycle off chat (.ok true d) ef nid fid s).effects.countP Effect.isEdit = 0
      ∧ (pyCycle off chat (.ok true d) ef nid fid s).st.message_ids chat = some nid)
  ∧ (∀ (off chat : Int) (d : ApiData) (nid fid : Nat) (s : PySt)
        (train : String) (pos : Position)
        (cur : RouteStation) (prev nxt : Option RouteStation) (mid : Nat),
        s.active_trains chat = some train → train ≠ "" →
        d.currentPosition = some pos →
        pyResolve pos.stationCode none d.route = some (cur, prev, nxt) →
        s.message_ids chat = some mid →
        (pyCycle off chat (.ok true d) false nid fid s).effects.countP Effect.isEdit = 1
      ∧ (pyCycle off chat (.ok true d) false nid fid s).effects.countP Effect.isSend = 0) := by
  refine ⟨?_, ?_, ?_, ?_, ?_⟩
  · intro chat ef nid s train d mid hA ht hm hlast
    have hne : ¬ (some (b1Text train d) ≠ s.last_text) := by simp [hlast]
    constructor <;>
      simp [b1Cycle, hA, ht, hm, hne, List.countP_cons, Effect.isEdit, Effect.isSend]
  · intro chat nid s train d mid hA ht hm hlast
    have hne : some (b1Text train d) ≠ s.last_text := fun h => hlast h.symm
    constructor <;>
      simp [b1Cycle, hA, ht, hm, hne, List.countP_cons, Effect.isEdit, Effect.isSend]
  · intro chat ef nid s train d hA ht hm
    refine ⟨?_, ?_, ?_⟩ <;>
      simp [b1Cycle, hA, ht, hm, upd, List.countP_cons, Effect.isEdit, Effect.isSend]
  · intro off chat d ef nid fid s train pos cur prev nxt hA ht hp hres hm
    refine ⟨?_, ?_, ?_⟩ <;>
      simp [pyCycle, hA, ht, hp, hres, hm, upd, List.countP_cons, Effect.isEdit, Effect.isSend]
  · intro off chat d nid fid s train pos cur prev nxt mid hA ht hp hres hm
    constructor <;>
      simp [pyCycle, hA, ht, hp, hres, hm, List.countP_cons, Effect.isEdit, Effect.isSend]

/-- C3 witness: `bot1.py` with a recorded message and an unchanged last
text performs no outbound operation; with no recorded message, one send. -/
theorem c3_idempotent_edits_witness :
    ((b1Cycle ⟨1, .ok true dataB, false, 9⟩
        { b1StMsg with last_text := some (b1Text "12303" dataB) }).effects.countP
      Effect.isEdit = 0)
  ∧ ((b1Cycle ⟨1, .ok true dataB, false, 9⟩ b1St0).effects.countP Effect.isSend = 1) :=
  ⟨(c3_idempotent_edits.1 1 false 9 { b1StMsg with last_text := some (b1Text "12303" dataB) }
      "12303" dataB 5 (by decide) (by decide) (by decide) rfl).1,
   (c3_idempotent_edits.2.2.1 1 false 9 b1St0 "12303" dataB
      (by decide) (by decide) (by decide)).1⟩

/-- C3 counterexample: a second `bot.py` cycle rendering exactly the text
just sent still performs one outbound edit — `bot.py` never compares the
rendered text against the last sent text. -/
theorem c3_idempotent_edits_counterexample :
    (pyCycle 0 1 (.ok true dataB) false 7 8 pySt0).effects
      = [.fetch "12303", .send 1 (renderPy 0 "12303" stB (some stA) (some stC) posB)]
  ∧ (pyCycle 0 1 (.ok true dataB) false 9 10 pySt1).effects
      = [.fetch "12303", .edit 1 7 (renderPy 0 "12303" stB (some stA) (some stC) posB)]
  ∧ (pyCycle 0 1 (.ok true dataB) false 9 10 pySt1).effects.countP Effect.isEdit = 1 := by
  refine ⟨by decide, by decide, by decide⟩

/-- C5 (amended): in `bot.py` a failed edit falls back, in the same
cycle, to sending a replacement message and re-recording its id; in
`bot1.py` a failed edit performs no replacement send and keeps the stale
message id (see the counterexample); in both variants a tracked chat's
cycle never terminates the tracking task. -/
theorem c5_edit_failure_fallback :
    (∀ (off chat : Int) (d : ApiData) (nid fid : Nat) (s : PySt)
        (train : String) (pos : Position)
        (cur : RouteStation) (prev nxt : Option RouteStation) (mid : Nat),
        s.active_trains chat = some train → train ≠ "" →
        d.currentPosition = some pos →
        pyResolve pos.stationCode none d.route = some (cur, prev, nxt) →
        s.message_ids chat = some mid →
        (pyCycle off chat (.ok true d) true nid fid s).effects
          = [.fetch train, .edit chat mid (renderPy off train cur prev nxt pos),
             .send chat (renderPy off train cur prev nxt pos)]
      ∧ (pyCycle off chat (.ok true d) true nid fid s).st.message_ids chat = some fid)
  ∧ (∀ (inp : B1In) (s : B1St) (train : String),
        s.active_trains inp.chat = some train → train ≠ "" →
        (b1Cycle inp s).exit ≠ .halt) := by
  constructor
  · intro off chat d nid fid s train pos cur prev nxt mid hA ht hp hres hm
    constructor <;> simp [pyCycle, hA, ht, hp, hres, hm, upd]
  · intro inp s train hA ht
    obtain ⟨chat, api, ef, nid⟩ := inp
    cases api with
    | exn => simp [b1Cycle, hA, ht]
    | ok success data =>
      cases success with
      | false => simp [b1Cycle, hA, ht]
      | true =>
        cases hm : s.message_ids chat with
        | none => simp [b1Cycle, hA, ht, hm]
        | some mid =>
          by_cases hlast : some (b1Text train data) ≠ s.last_text
          · cases ef <;> simp [b1Cycle, hA, ht, hm, hlast]
          · simp [b1Cycle, hA, ht, hm, hlast]

/-- C5 witness: a failing edit on `bot.py` falls back to a replacement
send and re-records its id, and a failing edit on `bot1.py` leaves the
task alive. -/
theorem c5_edit_failure_fallback_witness :
    ((pyCycle 0 1 (.ok true dataB) true 7 8 pyStMsg).effects
      = [.fetch "12303", .edit 1 5 (renderPy 0 "12303" stB (some stA) (some stC) posB),
         .send 1 (renderPy 0 "12303" stB (some stA) (some stC) posB)]
    ∧ (pyCycle 0 1 (.ok true dataB) true 7 8 pyStMsg).st.message_ids 1 = some 8)
  ∧ (b1Cycle ⟨1, .ok true dataB, true, 9⟩ b1StMsg).exit ≠ .halt :=
  ⟨c5_edit_failure_fallback.1 0 1 dataB 7 8 pyStMsg "12303" posB stB (some stA) (some stC) 5
     (by decide) (by decide) (by decide) (by decide) (by decide),
   c5_edit_failure_fallback.2 ⟨1, .ok true dataB, true, 9⟩ b1StMsg "12303"
     (by decide) (by decide)⟩

/-- C5 counterexample: on a failed edit, `bot1.py` performs no fallback
send in that cycle and keeps the stale message id; the task merely backs
off 20 s. -/
theorem c5_edit_failure_fallback_counterexample :
    (b1Cycle ⟨1, .ok true dataB, true, 9⟩ b1StMsg).effects.countP Effect.isSend = 0
  ∧ (b1Cycle ⟨1, .ok true dataB, true, 9⟩ b1StMsg).effects.countP Effect.isEdit = 1
  ∧ (b1Cycle ⟨1, .ok true dataB, true, 9⟩ b1StMsg).st.message_ids 1 = some 5
  ∧ (b1Cycle ⟨1, .ok true dataB, true, 9⟩ b1StMsg).exit = .sleepFor b1BackoffErr := by
  refine ⟨by decide, by decide, by decide, by decide⟩

/-- C10: a `bot.py` polling run spawns an animation task only when none
is registered for the chat — a registered task's captured base text
survives every later poll unchanged — a spawn captures exactly the base
text rendered by that cycle, and the animation ticks cycle the three
frames over the captured base with period three, each tick generated from
the captured base rather than the previous frame. -/
theorem c10_animation_capture :
    (∀ (off chat : Int) (api : ApiResult) (ef : Bool) (nid fid : Nat) (s : PySt) (b : String),
        s.animTasks chat = some b →
        (pyCycle off chat api ef nid fid s).st.animTasks chat = some b)
  ∧ (∀ (off chat : Int) (d : ApiData) (ef : Bool) (nid fid : Nat) (s : PySt)
        (train : String) (pos : Position)
        (cur : RouteStation) (prev nxt : Option RouteStation),
        s.active_trains chat = some train → train ≠ "" →
        d.currentPosition = some pos →
        pyResolve pos.stationCode none d.route = some (cur, prev, nxt) →
        s.animTasks chat = none →
        (pyCycle off chat (.ok true d) ef nid fid s).st.animTasks chat
          = some (renderPy off train cur prev nxt pos))
  ∧ (∀ (base : String) (k : Nat), animate_emit base (k + 3) = animate_emit base k) := by
  refine ⟨?_, ?_, ?_⟩
  · intro off chat api ef nid fid s b hb
    cases hA : s.active_trains chat with
    | none => simp [pyCycle, hA, hb]
    | some train =>
      by_cases ht : train = ""
      · simp [pyCycle, hA, ht, hb]
      · cases api with
        | exn => simp [pyCycle, hA, ht, hb]
        | ok success data =>
          cases success with
          | false => simp [pyCycle, hA, ht, hb]
          | true =>
            cases hp : data.currentPosition with
            | none => simp [pyCycle, hA, ht, hp, hb]
            | some pos =>
              cases hres : pyResolve pos.stationCode none data.route with
              | none => simp [pyCycle, hA, ht, hp, hres, hb]
              | some ctx =>
                obtain ⟨cur, prev, nxt⟩ := ctx
                cases hm : s.message_ids chat with
                | none => simp [pyCycle, hA, ht, hp, hres, hm, hb]
                | some mid => cases ef <;> simp [pyCycle, hA, ht, hp, hres, hm, hb]
  · intro off chat d ef nid fid s train pos cur prev nxt hA ht hp hres hanim
    cases hm : s.message_ids chat with
    | none => simp [pyCycle, hA, ht, hp, hres, hm, hanim, upd]
    | some mid => cases ef <;> simp [pyCycle, hA, ht, hp, hres, hm, hanim, upd]
  · intro base k
    simp [animate_emit, frameAt, Nat.add_mod_right]

/-- C10 witness: a first successful cycle spawns the animation task
capturing that cycle's base text, and a further cycle leaves the captured
base unchanged. -/
theorem c10_animation_capture_witness :
    (pyCycle 0 1 (.ok true dataB) false 7 8 pySt0).st.animTasks 1
      = some (renderPy 0 "12303" stB (some stA) (some stC) posB)
  ∧ (pyCycle 0 1 (.ok true dataB) false 9 10 pySt1).st.animTasks 1
      = pySt1.animTasks 1 := by
  constructor
  · exact c10_animation_capture.2.1 0 1 dataB false 7 8 pySt0 "12303" posB stB
      (some stA) (some stC) (by decide) (by decide) (by decide) (by decide) (by decide)
  · rw [c10_animation_capture.1 0 1 (.ok true dataB) false 9 10 pySt1
      (renderPy 0 "12303" stB (some stA) (some stC) posB) (by decide)]
    exact (by decide : pySt1.animTasks 1
      = some (renderPy 0 "12303" stB (some stA) (some stC) posB)).symm

/-- One `bot1.py` `add_train` call leaves exactly one running tracking
task for the chat, preserves the task discipline, records the
confirmation reply id, and never touches `last_station_code`. -/
theorem b1AddTrain_once (chat : Int) (train : String) (cid : Nat) (r : B1Reg)
    (h : b1TasksConsistent r chat) :
    ((b1AddTrain chat (some train) cid r).taskAlive.countP (fun p => p.2 == chat) = 1)
  ∧ b1TasksConsistent (b1AddTrain chat (some train) cid r) chat
  ∧ (b1AddTrain chat (some train) cid r).message_ids chat = some cid
  ∧ (b1AddTrain chat (some train) cid r).last_station_code = r.last_station_code := by
  cases htask : r.taskOf chat with
  | none =>
    have hzero : r.taskAlive.countP (fun p => p.2 == chat) = 0 := by
      rw [List.countP_eq_zero]
      intro p hp
      simp only [beq_iff_eq, decide_eq_true_eq]
      intro hpc
      rw [h p hp hpc] at htask
      exact Option.noConfusion htask
    refine ⟨?_, ?_, ?_, ?_⟩
    · simp [b1AddTrain, htask, List.countP_cons, hzero]
    · intro p hp hpc
      simp only [b1AddTrain, htask] at hp ⊢
      rcases List.mem_cons.mp hp with hh | hh
      · subst hh
        simp [upd]
      · exfalso
        rw [h p hh hpc] at htask
        exact Option.noConfusion htask
    · simp [b1AddTrain, htask, upd]
    · simp [b1AddTrain, htask]
  | some t =>
    have hzero : (r.taskAlive.filter (fun p => p.1 ≠ t)).countP (fun p => p.2 == chat) = 0 := by
      rw [List.countP_eq_zero]
      intro p hp
      obtain ⟨hpm, hpt⟩ := List.mem_filter.mp hp
      simp only [beq_iff_eq, decide_eq_true_eq]
      intro hpc
      have := h p hpm hpc
      rw [htask] at this
      simp only [decide_eq_true_eq] at hpt
      exact hpt (Option.some_injective _ this.symm)
    refine ⟨?_, ?_, ?_, ?_⟩
    · simp only [b1AddTrain, htask]
      rw [List.countP_cons, hzero]
      simp
    · intro p hp hpc
      simp only [b1AddTrain, htask] at hp ⊢
      rcases List.mem_cons.mp hp with hh | hh
      · subst hh
        simp [upd]
      · exfalso
        obtain ⟨hpm, hpt⟩ := List.mem_filter.mp hh
        have := h p hpm hpc
        rw [htask] at this
        simp only [decide_eq_true_eq] at hpt
        exact hpt (Option.some_injective _ this.symm)
    · simp [b1AddTrain, htask, upd]
    · simp [b1AddTrain, htask]

/-- One `bot.py` `add_train` call leaves exactly one repeating job for
the chat, no running animation task for it, preserves the animation
discipline, and clears the stored message id. -/
theorem pyAddTrain_once (chat : Int) (arg : String) (r : PyReg)
    (h : pyAnimConsistent r chat) :
    ((pyAddTrain chat (some arg) r).jobs.countP (fun c => c == chat) = 1)
  ∧ ((pyAddTrain chat (some arg) r).animAlive.countP (fun p => p.2 == chat) = 0)
  ∧ pyAnimConsistent (pyAddTrain chat (some arg) r) chat
  ∧ (pyAddTrain chat (some arg) r).message_ids chat = none := by
  have hjobs : ∀ l : List Int, (l.filter (fun c => c ≠ chat)).countP (fun c => c == chat) = 0 := by
    intro l
    rw [List.countP_eq_zero]
    intro c hc
    obtain ⟨_, hcne⟩ := List.mem_filter.mp hc
    simpa using hcne
  cases hanim : r.animOf chat with
  | none =>
    have hzero : r.animAlive.countP (fun p => p.2 == chat) = 0 := by
      rw [List.countP_eq_zero]
      intro p hp
      simp only [beq_iff_eq, decide_eq_true_eq]
      intro hpc
      rw [h p hp hpc] at hanim
      exact Option.noConfusion hanim
    refine ⟨?_, ?_, ?_, ?_⟩
    · simp [pyAddTrain, hanim, List.countP_cons, hjobs]
    · simpa [pyAddTrain, hanim] using hzero
    · intro p hp hpc
      simp only [pyAddTrain, hanim] at hp ⊢
      rw [h p hp hpc] at hanim
      exact Option.noConfusion hanim
    · simp [pyAddTrain, hanim, upd]
  | some t =>
    have hzero : (r.animAlive.filter (fun p => p.1 ≠ t)).countP (fun p => p.2 == chat) = 0 := by
      rw [List.countP_eq_zero]
      intro p hp
      obtain ⟨hpm, hpt⟩ := List.mem_filter.mp hp
      simp only [beq_iff_eq, decide_eq_true_eq]
      intro hpc
      have := h p hpm hpc
      rw [hanim] at this
      simp only [decide_eq_true_eq] at hpt
      exact hpt (Option.some_injective _ this.symm)
    refine ⟨?_, ?_, ?_, ?_⟩
    · simp [pyAddTrain, hanim, List.countP_cons, hjobs]
    · simpa [pyAddTrain, hanim] using hzero
    · intro p hp hpc
      simp only [pyAddTrain, hanim] at hp ⊢
      exfalso
      obtain ⟨hpm, hpt⟩ := List.mem_filter.mp hp
      have := h p hpm hpc
      rw [hanim] at this
      simp only [decide_eq_true_eq] at hpt
      exact hpt (Option.some_injective _ this.symm)
    · simp [pyAddTrain, hanim, upd]

/-- C4 (amended): issuing `addtrain` twice in a row cancels and replaces
the previous tracking task (`bot1.py`) resp. the previous repeating job
and animation task (`bot.py`), leaving exactly one tracking task/job per
chat; `bot.py` clears the stored message id, while `bot1.py` records the
confirmation reply's id as the tracked message — the message store thus
holds at most one id per chat — and `bot1.py` leaves the last-seen
station code unchanged rather than clearing it. -/
theorem c4_addtrain_restart :
    (∀ (chat : Int) (t1 t2 : String) (c1 c2 : Nat) (r : B1Reg),
        b1TasksConsistent r chat →
        ((b1AddTrain chat (some t2) c2 (b1AddTrain chat (some t1) c1 r)).taskAlive.countP
            (fun p => p.2 == chat) = 1)
      ∧ (b1AddTrain chat (some t2) c2 (b1AddTrain chat (some t1) c1 r)).message_ids chat
          = some c2
      ∧ (b1AddTrain chat (some t2) c2 (b1AddTrain chat (some t1) c1 r)).last_station_code
          = r.last_station_code)
  ∧ (∀ (chat : Int) (a1 a2 : String) (r : PyReg),
        pyAnimConsistent r chat →
        ((pyAddTrain chat (some a2) (pyAddTrain chat (some a1) r)).jobs.countP
            (fun c => c == chat) = 1)
      ∧ (pyAddTrain chat (some a2) (pyAddTrain chat (some a1) r)).message_ids chat = none
      ∧ ((pyAddTrain chat (some a2) (pyAddTrain chat (some a1) r)).animAlive.countP
            (fun p => p.2 == chat) = 0)) := by
  constructor
  · intro chat t1 t2 c1 c2 r h
    obtain ⟨-, h1, -, hl1⟩ := b1AddTrain_once chat t1 c1 r h
    obtain ⟨h2c, -, h2m, h2l⟩ := b1AddTrain_once chat t2 c2 _ h1
    exact ⟨h2c, h2m, h2l.trans hl1⟩
  · intro chat a1 a2 r h
    obtain ⟨-, -, h1, -⟩ := pyAddTrain_once chat a1 r h
    obtain ⟨h2j, h2a, -, h2m⟩ := pyAddTrain_once chat a2 _ h1
    exact ⟨h2j, h2m, h2a⟩

/-- C4 witness: two successive `addtrain` calls on both registries from a
consistent tracked state. -/
theorem c4_addtrain_restart_witness :
    ((b1AddTrain 1 (some "222") 8 (b1AddTrain 1 (some "12303") 7 b1Reg0)).taskAlive.countP
        (fun p => p.2 == 1) = 1)
  ∧ (b1AddTrain 1 (some "222") 8 (b1AddTrain 1 (some "12303") 7 b1Reg0)).message_ids 1
      = some 8
  ∧ (b1AddTrain 1 (some "222") 8 (b1AddTrain 1 (some "12303") 7 b1Reg0)).last_station_code
      = b1Reg0.last_station_code
  ∧ ((pyAddTrain 1 (some "222") (pyAddTrain 1 (some "12303") pyReg0)).jobs.countP
        (fun c => c == 1) = 1)
  ∧ (pyAddTrain 1 (some "222") (pyAddTrain 1 (some "12303") pyReg0)).message_ids 1 = none
  ∧ ((pyAddTrain 1 (some "222") (pyAddTrain 1 (some "12303") pyReg0)).animAlive.countP
        (fun p => p.2 == 1) = 0) := by
  obtain ⟨h1, h2, h3⟩ := c4_addtrain_restart.1 1 "12303" "222" 7 8 b1Reg0
    (by unfold b1TasksConsistent; decide)
  obtain ⟨h4, h5, h6⟩ := c4_addtrain_restart.2 1 "12303" "222" pyReg0
    (by unfold pyAnimConsistent; decide)
  exact ⟨h1, h2, h3, h4, h5, h6⟩

/-- C4 counterexample: a single `bot1.py` `add_train` call neither clears
the last-seen station code (it stays `"NDLS"`) nor clears the stored
message reference — it overwrites it with the confirmation reply's id. -/
theorem c4_addtrain_restart_counterexample :
    (b1AddTrain 1 (some "12303") 42 b1Reg0).last_station_code 1 = some (some "NDLS")
  ∧ ¬ (b1AddTrain 1 (some "12303") 42 b1Reg0).last_station_code 1 = none
  ∧ (b1AddTrain 1 (some "12303") 42 b1Reg0).message_ids 1 = some 42 := by
  refine ⟨by decide, by decide, by decide⟩

/-! Machinery for reasoning about `pyReplace`.  All patterns of interest
start with a marker glyph that occurs nowhere else in the scanned text,
which makes the left-to-right scan skip every non-anchor character. -/

/-- A pattern headed by a character absent from the text never matches:
the scan returns the text unchanged (also under exhausted fuel). -/
theorem replaceAllAux_skip (m : Char) (pt rep : List Char) :
    ∀ (f : Nat) (s : List Char), m ∉ s → replaceAllAux (m :: pt) rep f s = s := by
  intro f
  induction f with
  | zero => intro s _; rfl
  | succ f ih =>
    intro s hs
    match s with
    | [] => rfl
    | c :: s2 =>
      have hcm : ¬ ((m :: pt).isPrefixOf (c :: s2) = true) := by
        simp only [List.isPrefixOf, Bool.and_eq_true, beq_iff_eq]
        rintro ⟨h1, -⟩
        exact hs (by rw [h1]; exact List.mem_cons_self _ _)
      simp only [replaceAllAux, if_neg hcm]
      rw [ih s2 (fun hm => hs (List.mem_cons_of_mem _ hm))]

/-- A list is a prefix of itself followed by anything. -/
theorem isPrefixOf_append_self (l t : List Char) : l.isPrefixOf (l ++ t) = true := by
  induction l with
  | nil => simp [List.isPrefixOf]
  | cons a as ih => simp [List.isPrefixOf, ih]

/-- With enough fuel, scanning `x ++ pat ++ y` where the pattern's head
marker occurs in neither `x` nor `y` replaces exactly the middle
occurrence. -/
theorem replaceAllAux_seg (m : Char) (pt rep : List Char) :
    ∀ (x : List Char) (f : Nat) (y : List Char), m ∉ x → m ∉ y →
      (x ++ ((m :: pt) ++ y)).length ≤ f →
      replaceAllAux (m :: pt) rep f (x ++ ((m :: pt) ++ y)) = x ++ (rep ++ y) := by
  intro x
  induction x with
  | nil =>
    intro f y _ hy hf
    simp only [List.nil_append] at hf ⊢
    cases f with
    | zero =>
      exfalso
      simp only [List.length_append, List.length_cons] at hf
      omega
    | succ f =>
      have hpre : (m :: pt).isPrefixOf (m :: (pt ++ y)) = true := by
        have := isPrefixOf_append_self (m :: pt) y
        simp only [List.cons_append] at this
        exact this
      show replaceAllAux (m :: pt) rep (f + 1) (m :: (pt ++ y)) = rep ++ y
      simp only [replaceAllAux, if_pos hpre]
      have hdrop : (m :: (pt ++ y)).drop (m :: pt).length = y := by
        have := List.drop_left (m :: pt) y
        simp only [List.cons_append] at this
        exact this
      rw [hdrop, replaceAllAux_skip m pt rep f y hy]
  | cons c x2 ih =>
    intro f y hx hy hf
    have hc : ¬ (m = c) := fun h => hx (List.mem_cons.mpr (Or.inl h))
    cases f with
    | zero =>
      exfalso
      simp only [List.length_append, List.length_cons] at hf
      omega
    | succ f =>
      have hnot : ¬ ((m :: pt).isPrefixOf (c :: (x2 ++ ((m :: pt) ++ y))) = true) := by
        simp only [List.isPrefixOf, Bool.and_eq_true, beq_iff_eq]
        rintro ⟨h1, -⟩
        exact hc h1
      show replaceAllAux (m :: pt) rep (f + 1) (c :: (x2 ++ ((m :: pt) ++ y)))
        = c :: (x2 ++ (rep ++ y))
      simp only [replaceAllAux, if_neg hnot]
      rw [ih f y (fun hm => hx (List.mem_cons_of_mem _ hm)) hy ?_]
      simp only [List.length_cons, List.length_append] at hf ⊢
      omega

/-- `rep1` on a text holding exactly one marked occurrence of the
pattern. -/
theorem rep1_split (x pat y rep : List Char) (m : Char) (pt : List Char)
    (hpat : pat = m :: pt) (hx : m ∉ x) (hy : m ∉ y) :
    rep1 (x ++ (pat ++ y)) pat rep = x ++ (rep ++ y) := by
  subst hpat
  exact replaceAllAux_seg m pt rep x _ y hx hy le_rfl

/-- `rep1` on a text free of the pattern's head marker. -/
theorem rep1_skip (s pat rep : List Char) (m : Char) (pt : List Char)
    (hpat : pat = m :: pt) (hs : m ∉ s) :
    rep1 s pat rep = s := by
  subst hpat
  exact replaceAllAux_skip m pt rep s.length s hs

/-- String append acts as list append on the underlying data. -/
theorem strData_append (a b : String) : (a ++ b).data = a.data ++ b.data := rfl

/-- The empty string has empty data. -/
theorem strData_empty : ("" : String).data = [] := rfl

/-- Strings with equal data are equal. -/
theorem strEq_of_data {a b : String} (h : a.data = b.data) : a = b := by
  cases a
  cases b
  exact congrArg String.mk h

/-- `pyReplace` in terms of the list-level scan. -/
theorem pyReplace_data (s pat rep : String) :
    (pyReplace s pat rep).data = rep1 s.data pat.data rep.data := rfl

/-- Three chained replacements over a text holding all three anchors,
each headed by a marker foreign to every other segment. -/
theorem tripleRep_full (s p1 r1 p2 r2 p3 r3 : String)
    (H B C D : List Char) (m1 m2 m3 : Char) (t1 t2 t3 : List Char)
    (hp1 : p1.data = m1 :: t1) (hp2 : p2.data = m2 :: t2) (hp3 : p3.data = m3 :: t3)
    (hs : s.data = H ++ (p1.data ++ (B ++ (p2.data ++ (C ++ (p3.data ++ D))))))
    (h1H : m1 ∉ H) (h1B : m1 ∉ B) (h1C : m1 ∉ C) (h1D : m1 ∉ D)
    (h1p2 : m1 ∉ p2.data) (h1p3 : m1 ∉ p3.data)
    (h2H : m2 ∉ H) (h2B : m2 ∉ B) (h2C : m2 ∉ C) (h2D : m2 ∉ D)
    (h2r1 : m2 ∉ r1.data) (h2p3 : m2 ∉ p3.data)
    (h3H : m3 ∉ H) (h3B : m3 ∉ B) (h3C : m3 ∉ C) (h3D : m3 ∉ D)
    (h3r1 : m3 ∉ r1.data) (h3r2 : m3 ∉ r2.data) :
    (pyReplace (pyReplace (pyReplace s p1 r1) p2 r2) p3 r3).data
      = H ++ (r1.data ++ (B ++ (r2.data ++ (C ++ (r3.data ++ D))))) := by
  have e1 : (pyReplace s p1 r1).data
      = H ++ (r1.data ++ (B ++ (p2.data ++ (C ++ (p3.data ++ D))))) := by
    rw [pyReplace_data, hs]
    exact rep1_split H p1.data _ r1.data m1 t1 hp1 h1H (by
      simp only [List.mem_append, not_or]
      exact ⟨h1B, h1p2, h1C, h1p3, h1D⟩)
  have e2 : (pyReplace (pyReplace s p1 r1) p2 r2).data
      = H ++ (r1.data ++ (B ++ (r2.data ++ (C ++ (p3.data ++ D))))) := by
    rw [pyReplace_data, e1]
    have hshape : H ++ (r1.data ++ (B ++ (p2.data ++ (C ++ (p3.data ++ D)))))
        = (H ++ (r1.data ++ B)) ++ (p2.data ++ (C ++ (p3.data ++ D))) := by
      simp [List.append_assoc]
    rw [hshape, rep1_split (H ++ (r1.data ++ B)) p2.data _ r2.data m2 t2 hp2
      (by simp only [List.mem_append, not_or]; exact ⟨h2H, h2r1, h2B⟩)
      (by simp only [List.mem_append, not_or]; exact ⟨h2C, h2p3, h2D⟩)]
    simp [List.append_assoc]
  rw [pyReplace_data, e2]
  have hshape : H ++ (r1.data ++ (B ++ (r2.data ++ (C ++ (p3.data ++ D)))))
      = (H ++ (r1.data ++ (B ++ (r2.data ++ C)))) ++ (p3.data ++ D) := by
    simp [List.append_assoc]
  rw [hshape, rep1_split (H ++ (r1.data ++ (B ++ (r2.data ++ C)))) p3.data D r3.data m3 t3 hp3
    (by simp only [List.mem_append, not_or]; exact ⟨h3H, h3r1, h3B, h3r2, h3C⟩) h3D]
  simp [List.append_assoc]

/-- Three chained replacements over a text holding the current and
previous anchors only. -/
theorem tripleRep_noNext (s p1 r1 p2 r2 p3 r3 : String)
    (H B C : List Char) (m1 m2 m3 : Char) (t1 t2 t3 : List Char)
    (hp1 : p1.data = m1 :: t1) (hp2 : p2.data = m2 :: t2) (hp3 : p3.data = m3 :: t3)
    (hs : s.data = H ++ (p1.data ++ (B ++ (p2.data ++ C))))
    (h1H : m1 ∉ H) (h1B : m1 ∉ B) (h1C : m1 ∉ C) (h1p2 : m1 ∉ p2.data)
    (h2H : m2 ∉ H) (h2B : m2 ∉ B) (h2C : m2 ∉ C) (h2r1 : m2 ∉ r1.data)
    (h3H : m3 ∉ H) (h3B : m3 ∉ B) (h3C : m3 ∉ C) (h3r1 : m3 ∉ r1.data) (h3r2 : m3 ∉ r2.data) :
    (pyReplace (pyReplace (pyReplace s p1 r1) p2 r2) p3 r3).data
      = H ++ (r1.data ++ (B ++ (r2.data ++ C))) := by
  have e1 : (pyReplace s p1 r1).data = H ++ (r1.data ++ (B ++ (p2.data ++ C))) := by
    rw [pyReplace_data, hs]
    exact rep1_split H p1.data _ r1.data m1 t1 hp1 h1H (by
      simp only [List.mem_append, not_or]
      exact ⟨h1B, h1p2, h1C⟩)
  have e2 : (pyReplace (pyReplace s p1 r1) p2 r2).data
      = H ++ (r1.data ++ (B ++ (r2.data ++ C))) := by
    rw [pyReplace_data, e1]
    have hshape : H ++ (r1.data ++ (B ++ (p2.data ++ C)))
        = (H ++ (r1.data ++ B)) ++ (p2.data ++ C) := by
      simp [List.append_assoc]
    rw [hshape, rep1_split (H ++ (r1.data ++ B)) p2.data C r2.data m2 t2 hp2
      (by simp only [List.mem_append, not_or]; exact ⟨h2H, h2r1, h2B⟩) h2C]
    simp [List.append_assoc]
  rw [pyReplace_data, e2]
  exact rep1_skip _ p3.data r3.data m3 t3 hp3 (by
    simp only [List.mem_append, not_or]
    exact ⟨h3H, h3r1, h3B, h3r2, h3C⟩)

/-- Three chained replacements over a text holding the current and next
anchors only. -/
theorem tripleRep_noPrev (s p1 r1 p2 r2 p3 r3 : String)
    (H B D : List Char) (m1 m2 m3 : Char) (t1 t2 t3 : List Char)
    (hp1 : p1.data = m1 :: t1) (hp2 : p2.data = m2 :: t2) (hp3 : p3.data = m3 :: t3)
    (hs : s.data = H ++ (p1.data ++ (B ++ (p3.data ++ D))))
    (h1H : m1 ∉ H) (h1B : m1 ∉ B) (h1D : m1 ∉ D) (h1p3 : m1 ∉ p3.data)
    (h2H : m2 ∉ H) (h2B : m2 ∉ B) (h2D : m2 ∉ D) (h2r1 : m2 ∉ r1.data) (h2p3 : m2 ∉ p3.data)
    (h3H : m3 ∉ H) (h3B : m3 ∉ B) (h3D : m3 ∉ D) (h3r1 : m3 ∉ r1.data) :
    (pyReplace (pyReplace (pyReplace s p1 r1) p2 r2) p3 r3).data
      = H ++ (r1.data ++ (B ++ (r3.data ++ D))) := by
  have e1 : (pyReplace s p1 r1).data = H ++ (r1.data ++ (B ++ (p3.data ++ D))) := by
    rw [pyReplace_data, hs]
    exact rep1_split H p1.data _ r1.data m1 t1 hp1 h1H (by
      simp only [List.mem_append, not_or]
      exact ⟨h1B, h1p3, h1D⟩)
  have e2 : (pyReplace (pyReplace s p1 r1) p2 r2).data
      = H ++ (r1.data ++ (B ++ (p3.data ++ D))) := by
    rw [pyReplace_data, e1]
    exact rep1_skip _ p2.data r2.data m2 t2 hp2 (by
      simp only [List.mem_append, not_or]
      exact ⟨h2H, h2r1, h2B, h2p3, h2D⟩)
  rw [pyReplace_data, e2]
  have hshape : H ++ (r1.data ++ (B ++ (p3.data ++ D)))
      = (H ++ (r1.data ++ B)) ++ (p3.data ++ D) := by
    simp [List.append_assoc]
  rw [hshape, rep1_split (H ++ (r1.data ++ B)) p3.data D r3.data m3 t3 hp3
    (by simp only [List.mem_append, not_or]; exact ⟨h3H, h3r1, h3B⟩) h3D]
  simp [List.append_assoc]

/-- Three chained replacements over a text holding only the current
anchor. -/
theorem tripleRep_onlyCur (s p1 r1 p2 r2 p3 r3 : String)
    (H B : List Char) (m1 m2 m3 : Char) (t1 t2 t3 : List Char)
    (hp1 : p1.data = m1 :: t1) (hp2 : p2.data = m2 :: t2) (hp3 : p3.data = m3 :: t3)
    (hs : s.data = H ++ (p1.data ++ B))
    (h1H : m1 ∉ H) (h1B : m1 ∉ B)
    (h2H : m2 ∉ H) (h2B : m2 ∉ B) (h2r1 : m2 ∉ r1.data)
    (h3H : m3 ∉ H) (h3B : m3 ∉ B) (h3r1 : m3 ∉ r1.data) :
    (pyReplace (pyReplace (pyReplace s p1 r1) p2 r2) p3 r3).data
      = H ++ (r1.data ++ B) := by
  have e1 : (pyReplace s p1 r1).data = H ++ (r1.data ++ B) := by
    rw [pyReplace_data, hs]
    exact rep1_split H p1.data B r1.data m1 t1 hp1 h1H h1B
  have e2 : (pyReplace (pyReplace s p1 r1) p2 r2).data = H ++ (r1.data ++ B) := by
    rw [pyReplace_data, e1]
    exact rep1_skip _ p2.data r2.data m2 t2 hp2 (by
      simp only [List.mem_append, not_or]
      exact ⟨h2H, h2r1, h2B⟩)
  rw [pyReplace_data, e2]
  exact rep1_skip _ p3.data r3.data m3 t3 hp3 (by
    simp only [List.mem_append, not_or]
    exact ⟨h3H, h3r1, h3B⟩)

/-- Core of C7, for one symbolic frame: applying the frame to a rendered
base text only swaps each anchor header for its decorated form, leaving
the header, current, previous and next segments untouched, and replacing
the decorated headers back recovers the base text exactly.  The marker
hypotheses hold for each of the three concrete frames. -/
theorem c7_core (off : Int) (train : String) (cur : RouteStation)
    (prev nxt : Option RouteStation) (pos : Position) (dC dP dN : String)
    (hdC : dC.data = '📍' :: dC.data.tail)
    (hdP : dP.data = '⬅' :: dP.data.tail)
    (hdN : dN.data = '➡' :: dN.data.tail)
    (hC2 : '⬅' ∉ dC.data) (hC3 : '➡' ∉ dC.data)
    (hP1 : '📍' ∉ dP.data) (hP3 : '➡' ∉ dP.data)
    (hN1 : '📍' ∉ dN.data) (hN2 : '⬅' ∉ dN.data)
    (hH : cleanText (pyHeader train))
    (hB : cleanText (pyCurBlockTail off cur pos))
    (hPrev : ∀ p, prev = some p → cleanText (pyPrevBlockTail off p))
    (hNxt : ∀ n, nxt = some n → cleanText (pyNextBlockTail off n)) :
    pyReplace (pyReplace (pyReplace (renderPy off train cur prev nxt pos) anchorCur dC)
        anchorPrev dP) anchorNext dN
      = pyHeader train ++ dC ++ pyCurBlockTail off cur pos
        ++ optSeg prev (fun p => dP ++ pyPrevBlockTail off p)
        ++ optSeg nxt (fun n => dN ++ pyNextBlockTail off n)
  ∧ pyReplace (pyReplace (pyReplace
        (pyHeader train ++ dC ++ pyCurBlockTail off cur pos
          ++ optSeg prev (fun p => dP ++ pyPrevBlockTail off p)
          ++ optSeg nxt (fun n => dN ++ pyNextBlockTail off n))
        dC anchorCur) dP anchorPrev) dN anchorNext
      = renderPy off train cur prev nxt pos := by
  rcases prev with _ | p <;> rcases nxt with _ | n
  · constructor
    · apply strEq_of_data
      rw [tripleRep_onlyCur _ anchorCur dC anchorPrev dP anchorNext dN
            (pyHeader train).data (pyCurBlockTail off cur pos).data
            '📍' '⬅' '➡' anchorCur.data.tail anchorPrev.data.tail anchorNext.data.tail
            (by decide) (by decide) (by decide)
            (by simp [renderPy, optSeg, strData_append, List.append_assoc])
            hH.1 hB.1 hH.2.1 hB.2.1 hC2 hH.2.2 hB.2.2 hC3]
      simp [optSeg, strData_append, List.append_assoc]
    · apply strEq_of_data
      rw [tripleRep_onlyCur _ dC anchorCur dP anchorPrev dN anchorNext
            (pyHeader train).data (pyCurBlockTail off cur pos).data
            '📍' '⬅' '➡' dC.data.tail dP.data.tail dN.data.tail
            hdC hdP hdN
            (by simp [optSeg, strData_append, List.append_assoc])
            hH.1 hB.1 hH.2.1 hB.2.1 (by decide) hH.2.2 hB.2.2 (by decide)]
      simp [renderPy, optSeg, strData_append, List.append_assoc]
  · have hDn := hNxt n rfl
    constructor
    · apply strEq_of_data
      rw [tripleRep_noPrev _ anchorCur dC anchorPrev dP anchorNext dN
            (pyHeader train).data (pyCurBlockTail off cur pos).data
            (pyNextBlockTail off n).data
            '📍' '⬅' '➡' anchorCur.data.tail anchorPrev.data.tail anchorNext.data.tail
            (by decide) (by decide) (by decide)
            (by simp [renderPy, optSeg, strData_append, List.append_assoc])
            hH.1 hB.1 hDn.1 (by decide)
            hH.2.1 hB.2.1 hDn.2.1 hC2 (by decide)
            hH.2.2 hB.2.2 hDn.2.2 hC3]
      simp [optSeg, strData_append, List.append_assoc]
    · apply strEq_of_data
      rw [tripleRep_noPrev _ dC anchorCur dP anchorPrev dN anchorNext
            (pyHeader train).data (pyCurBlockTail off cur pos).data
            (pyNextBlockTail off n).data
            '📍' '⬅' '➡' dC.data.tail dP.data.tail dN.data.tail
            hdC hdP hdN
            (by simp [optSeg, strData_append, List.append_assoc])
            hH.1 hB.1 hDn.1 hN1
            hH.2.1 hB.2.1 hDn.2.1 (by decide) hN2
            hH.2.2 hB.2.2 hDn.2.2 (by decide)]
      simp [renderPy, optSeg, strData_append, List.append_assoc]
  · have hCp := hPrev p rfl
    constructor
    · apply strEq_of_data
      rw [tripleRep_noNext _ anchorCur dC anchorPrev dP anchorNext dN
            (pyHeader train).data (pyCurBlockTail off cur pos).data
            (pyPrevBlockTail off p).data
            '📍' '⬅' '➡' anchorCur.data.tail anchorPrev.data.tail anchorNext.data.tail
            (by decide) (by decide) (by decide)
            (by simp [renderPy, optSeg, strData_append, List.append_assoc])
            hH.1 hB.1 hCp.1 (by decide)
            hH.2.1 hB.2.1 hCp.2.1 hC2
            hH.2.2 hB.2.2 hCp.2.2 hC3 hP3]
      simp [optSeg, strData_append, List.append_assoc]
    · apply strEq_of_data
      rw [tripleRep_noNext _ dC anchorCur dP anchorPrev dN anchorNext
            (pyHeader train).data (pyCurBlockTail off cur pos).data
            (pyPrevBlockTail off p).data
            '📍' '⬅' '➡' dC.data.tail dP.data.tail dN.data.tail
            hdC hdP hdN
            (by simp [optSeg, strData_append, List.append_assoc])
            hH.1 hB.1 hCp.1 hP1
            hH.2.1 hB.2.1 hCp.2.1 (by decide)
            hH.2.2 hB.2.2 hCp.2.2 (by decide) (by decide)]
      simp [renderPy, optSeg, strData_append, List.append_assoc]
  · have hCp := hPrev p rfl
    have hDn := hNxt n rfl
    constructor
    · apply strEq_of_data
      rw [tripleRep_full _ anchorCur dC anchorPrev dP anchorNext dN
            (pyHeader train).data (pyCurBlockTail off cur pos).data
            (pyPrevBlockTail off p).data (pyNextBlockTail off n).data
            '📍' '⬅' '➡' anchorCur.data.tail anchorPrev.data.tail anchorNext.data.tail
            (by decide) (by decide) (by decide)
            (by simp [renderPy, optSeg, strData_append, List.append_assoc])
            hH.1 hB.1 hCp.1 hDn.1 (by decide) (by decide)
            hH.2.1 hB.2.1 hCp.2.1 hDn.2.1 hC2 (by decide)
            hH.2.2 hB.2.2 hCp.2.2 hDn.2.2 hC3 hP3]
      simp [optSeg, strData_append, List.append_assoc]
    · apply strEq_of_data
      rw [tripleRep_full _ dC anchorCur dP anchorPrev dN anchorNext
            (pyHeader train).data (pyCurBlockTail off cur pos).data
            (pyPrevBlockTail off p).data (pyNextBlockTail off n).data
            '📍' '⬅' '➡' dC.data.tail dP.data.tail dN.data.tail
            hdC hdP hdN
            (by simp [optSeg, strData_append, List.append_assoc])
            hH.1 hB.1 hCp.1 hDn.1 hP1 hN1
            hH.2.1 hB.2.1 hCp.2.1 hDn.2.1 (by decide) hN2
            hH.2.2 hB.2.2 hCp.2.2 hDn.2.2 (by decide) (by decide)]
      simp [renderPy, optSeg, strData_append, List.append_assoc]

/-- C7: for every base text the renderer produces (from inputs whose
variable segments are free of the three marker glyphs), applying any
animation frame changes only the decorative anchor headers — the header,
station, time and distance segments appear unchanged around the decorated
anchors — and replacing the anchors back recovers the base text exactly;
moreover each animation tick is, by construction, the tick's frame
applied to the captured base text (never to the previous frame), the
frame used at each tick being one of the three fixed frames. -/
theorem c7_animation_frames :
    (∀ (off : Int) (train : String) (cur : RouteStation) (prev nxt : Option RouteStation)
        (pos : Position),
        cleanText (pyHeader train) →
        cleanText (pyCurBlockTail off cur pos) →
        (∀ p, prev = some p → cleanText (pyPrevBlockTail off p)) →
        (∀ n, nxt = some n → cleanText (pyNextBlockTail off n)) →
        ∀ fr ∈ pyFrames,
          applyFrame fr (renderPy off train cur prev nxt pos)
            = pyHeader train ++ decoratedCur fr.1 ++ pyCurBlockTail off cur pos
              ++ optSeg prev (fun p => decoratedPrev fr.2.1 ++ pyPrevBlockTail off p)
              ++ optSeg nxt (fun n => decoratedNext fr.2.2 ++ pyNextBlockTail off n)
        ∧ unapplyFrame fr (applyFrame fr (renderPy off train cur prev nxt pos))
            = renderPy off train cur prev nxt pos)
  ∧ (∀ (base : String) (k : Nat), animate_emit base k = applyFrame (frameAt k) base)
  ∧ (∀ k : Nat, frameAt k ∈ pyFrames) := by
  refine ⟨?_, fun base k => rfl, ?_⟩
  · intro off train cur prev nxt pos hH hB hPrev hNxt fr hfr
    have hcore := fun h1 h2 h3 h4 h5 h6 h7 h8 h9 =>
      c7_core off train cur prev nxt pos (decoratedCur fr.1) (decoratedPrev fr.2.1)
        (decoratedNext fr.2.2) h1 h2 h3 h4 h5 h6 h7 h8 h9 hH hB hPrev hNxt
    simp only [pyFrames, List.mem_cons, List.not_mem_nil, or_false] at hfr
    rcases hfr with rfl | rfl | rfl <;>
      (obtain ⟨h1, h2⟩ := hcore (by decide) (by decide) (by decide) (by decide) (by decide)
          (by decide) (by decide) (by decide) (by decide)
       exact ⟨h1, (congrArg (unapplyFrame _) h1).trans h2⟩)
  · intro k
    rcases (show k % 3 = 0 ∨ k % 3 = 1 ∨ k % 3 = 2 by omega) with h | h | h <;>
      simp [frameAt, h, pyFrames]

/-- C7 witness: the second frame on a base text rendered from the
concrete three-station fixture. -/
theorem c7_animation_frames_witness :
    applyFrame ("📍➤", "⬅️ . .", "➡️➡️") (renderPy 0 "1" stB (some stA) (some stC) posB)
      = pyHeader "1" ++ decoratedCur "📍➤" ++ pyCurBlockTail 0 stB posB
        ++ (decoratedPrev "⬅️ . ." ++ pyPrevBlockTail 0 stA)
        ++ (decoratedNext "➡️➡️" ++ pyNextBlockTail 0 stC)
  ∧ unapplyFrame ("📍➤", "⬅️ . .", "➡️➡️")
      (applyFrame ("📍➤", "⬅️ . .", "➡️➡️") (renderPy 0 "1" stB (some stA) (some stC) posB))
      = renderPy 0 "1" stB (some stA) (some stC) posB := by
  have h := c7_animation_frames.1 0 "1" stB (some stA) (some stC) posB
    (by unfold cleanText; decide) (by unfold cleanText; decide)
    (fun p hp => by cases hp; unfold cleanText; decide)
    (fun n hn => by cases hn; unfold cleanText; decide)
    ("📍➤", "⬅️ . .", "➡️➡️") (by decide)
  exact ⟨h.1, h.2⟩

end RailBot
